import Mathlib

/-!
Shallow embedding of the dh-ddns-updater daemon (src/main.go) and proofs
about its reconcile pass, DNS client operations and state store.

HTTP calls are modelled by outcome oracles carried in an `Env`: each remote
call site receives either a transport failure or a response consisting of a
status code and a (possibly undecodable) body, exactly the cases the Go
code branches on.  The list of provider API calls a pass issues is returned
explicitly so that call-count properties can be stated.
-/

namespace DhDdns

/-- A single managed DNS record from the configuration (`DomainConfig` in
main.go): zone name, record type, and subdomain label (`""` for apex). -/
structure DomainConfig where
  name : String
  type : String
  record : String
  deriving DecidableEq, Repr

/-- Go map read `v, ok := m[k]` on the records map, modelled on an
association list. -/
def getRecord : List (String × String) → String → Option String
  | [], _ => none
  | (k0, v0) :: rest, k => if k0 = k then some v0 else getRecord rest k

/-- Go map write `m[k] = v` on the records map: replace an existing
binding, else append. -/
def setRecord : List (String × String) → String → String → List (String × String)
  | [], k, v => [(k, v)]
  | (k0, v0) :: rest, k, v =>
      if k0 = k then (k, v) :: rest else (k0, v0) :: setRecord rest k v

/-- Persistent daemon state (`State` in main.go): last known public IP,
last update time, and the map of record names to last written values. -/
structure State where
  lastIP : String
  lastUpdated : Nat
  records : List (String × String)
  deriving DecidableEq, Repr

/-- The key the reconcile loop in checkAndUpdate (main.go:176-180) writes
state records under: `record + "." + name`, overwritten with `name` alone
when the record label is empty (apex). -/
def reconcileKey (d : DomainConfig) : String :=
  let k := d.record ++ "." ++ d.name
  if d.record = "" then d.name else k

/-- The key removeDNSRecord (main.go:406) uses to look up the previously
applied value in the state records map: always `record + "." + name`,
with no special case for an empty record label. -/
def removeLookupKey (d : DomainConfig) : String :=
  d.record ++ "." ++ d.name

/-- strings.TrimSpace as used by getCurrentIP (main.go:325), modelled on
the character list: drop leading and trailing whitespace. -/
def trimSpace (s : String) : String :=
  String.mk (((s.toList.dropWhile Char.isWhitespace).reverse.dropWhile
    Char.isWhitespace).reverse)

/-- Outcome of the HTTP GET against the public IP echo service, as seen by
getCurrentIP: a transport failure from the client, or a response carrying
a status code and a raw body. -/
inductive IPFetch where
  | transportError (msg : String)
  | response (status : Nat) (body : String)
  deriving DecidableEq, Repr

/-- Failure modes of getCurrentIP (main.go:304-331). -/
inductive IPErr where
  | transport (msg : String)
  | httpStatus (status : Nat)
  | emptyResponse
  deriving DecidableEq, Repr

/-- getCurrentIP (main.go:304-331): a status other than 200 is an error
carrying the code; otherwise the body is whitespace-trimmed and an empty
result is an error, never a successful empty address. -/
def getCurrentIP (o : IPFetch) : Except IPErr String :=
  match o with
  | .transportError m => .error (.transport m)
  | .response status body =>
      if status ≠ 200 then .error (.httpStatus status)
      else
        let ip := trimSpace body
        if ip = "" then .error .emptyResponse else .ok ip

/-- One entry of the provider's dns-list_records response body
(main.go:269-276). -/
structure DNSRecordEntry where
  record : String
  type : String
  value : String
  deriving DecidableEq, Repr

/-- Decoded body of a dns-list_records response. -/
structure DNSListBody where
  result : String
  data : List DNSRecordEntry
  deriving DecidableEq, Repr

/-- Decoded body of a dns-add_record response (`DreamhostResponse` in
main.go). -/
structure DreamhostBody where
  result : String
  data : String
  deriving DecidableEq, Repr

/-- Outcome of one Dreamhost HTTP call: transport failure, or a response
with a status code and a decoded body (`none` = JSON decode failure). -/
inductive HTTPFetch (β : Type) where
  | transportError (msg : String)
  | response (status : Nat) (body : Option β)
  deriving DecidableEq, Repr

/-- Provider API calls issued during a pass, recorded for call-count
properties: a dns-list_records call, a dns-remove_record call with its
record key, type and optional value parameter, or a dns-add_record call
with its record key, type and value. -/
inductive ApiCall where
  | list
  | remove (key ty : String) (value : Option String)
  | add (key ty value : String)
  deriving DecidableEq, Repr

/-- The per-call outcomes of the remote world during one pass, plus the
clock read by `time.Now()`. -/
structure Env where
  ipFetch : IPFetch
  listFetch : DomainConfig → HTTPFetch DNSListBody
  removeFetch : DomainConfig → HTTPFetch Unit
  addFetch : DomainConfig → String → HTTPFetch DreamhostBody
  now : Nat

/-- The scan in getCurrentDNSRecord (main.go:292-299): first entry whose
record and type both match, else the empty string ("record not found"). -/
def findRecordValue : List DNSRecordEntry → String → String → String
  | [], _, _ => ""
  | e :: rest, target, ty =>
      if e.record = target ∧ e.type = ty then e.value
      else findRecordValue rest target ty

/-- getCurrentDNSRecord (main.go:246-300): one dns-list_records call;
transport failure, non-200 status, decode failure and a non-success
result are errors; otherwise the value of the matching entry (or `""` if
absent) is returned. -/
def getCurrentDNSRecord (env : Env) (d : DomainConfig) :
    List ApiCall × Except String String :=
  let targetRecord :=
    if d.record = "" then d.name else d.record ++ "." ++ d.name
  ([ApiCall.list],
    match env.listFetch d with
    | .transportError m => .error m
    | .response status body =>
        if status ≠ 200 then
          .error ("HTTP " ++ toString status ++ " from Dreamhost API")
        else
          match body with
          | none => .error "decoding response"
          | some b =>
              if b.result ≠ "success" then .error "dreamhost API error"
              else .ok (findRecordValue b.data targetRecord d.type))

/-- removeDNSRecord (main.go:391-426): one dns-remove_record call whose
value parameter is the state-map entry under `record + "." + name`
(main.go:406); only a transport failure is an error — the response status
and body are never inspected. -/
def removeDNSRecord (env : Env) (st : State) (d : DomainConfig) :
    List ApiCall × Except String Unit :=
  let key := if d.record = "" then d.name else d.record ++ "." ++ d.name
  let value := getRecord st.records (d.record ++ "." ++ d.name)
  ([ApiCall.remove key d.type value],
    match env.removeFetch d with
    | .transportError m => .error m
    | .response _ _ => .ok ())

/-- Error classification of the dns-add_record leg of updateDNSRecord
(main.go:361-385): transport failure, non-200 status, decode failure, or
a provider result other than "success". -/
def addResult (o : HTTPFetch DreamhostBody) : Except String Unit :=
  match o with
  | .transportError m => .error m
  | .response status body =>
      if status ≠ 200 then
        .error ("HTTP " ++ toString status ++ " from Dreamhost API")
      else
        match body with
        | none => .error "decoding response"
        | some b =>
            if b.result ≠ "success" then
              .error ("dreamhost API error: " ++ b.data)
            else .ok ()

/-- updateDNSRecord (main.go:337-386): attempt the remove, discard its
error (it is only logged), then perform the add and propagate the add's
error as the result of the whole update. -/
def updateDNSRecord (env : Env) (st : State) (d : DomainConfig) (ip : String) :
    List ApiCall × Except String Unit :=
  let removed := removeDNSRecord env st d
  let key := if d.record = "" then d.name else d.record ++ "." ++ d.name
  (removed.1 ++ [ApiCall.add key d.type ip], addResult (env.addFetch d ip))

/-- The `currentRecordIP` value the loop body of checkAndUpdate computes
(main.go:183-190): the looked-up live value, or `""` when the lookup
errored — forcing an update. -/
def liveValue (env : Env) (d : DomainConfig) : String :=
  match (getCurrentDNSRecord env d).2 with
  | .error _ => ""
  | .ok v => v

/-- One iteration of the domain loop in checkAndUpdate (main.go:176-222):
look up the live value (treated as `""` on lookup error, forcing an
update); if it equals the resolved IP, write the records map entry and
move on; otherwise run updateDNSRecord, collecting its error or, on
success, writing the records map entry and marking a record as updated.
Returns (state, calls issued, errors collected, updated-any flag). -/
def processDomain (env : Env) (ip : String) (st : State) (d : DomainConfig) :
    State × List ApiCall × List String × Bool :=
  if liveValue env d = ip then
    ({ st with records := setRecord st.records (reconcileKey d) ip },
      (getCurrentDNSRecord env d).1, [], false)
  else
    match (updateDNSRecord env st d ip).2 with
    | .error e =>
        (st, (getCurrentDNSRecord env d).1 ++ (updateDNSRecord env st d ip).1,
          [e], false)
    | .ok _ =>
        ({ st with records := setRecord st.records (reconcileKey d) ip },
          (getCurrentDNSRecord env d).1 ++ (updateDNSRecord env st d ip).1,
          [], true)

/-- The whole domain loop of checkAndUpdate, threading the state through
the domains in configured order and concatenating calls and errors. -/
def processDomains (env : Env) (ip : String) :
    List DomainConfig → State → State × List ApiCall × List String × Bool
  | [], st => (st, [], [], false)
  | d :: rest, st =>
      let step := processDomain env ip st d
      let tail := processDomains env ip rest step.1
      (tail.1, step.2.1 ++ tail.2.1, step.2.2.1 ++ tail.2.2.1,
        step.2.2.2 || tail.2.2.2)

/-- The error value a pass returns: a wrapped IP-resolution failure, or
the aggregate "failed to update %d records" error with its count. -/
inductive PassErr where
  | resolution (e : IPErr)
  | updateFailures (n : Nat)
  deriving DecidableEq, Repr

/-- Result of one checkAndUpdate pass: the in-memory state afterwards, the
provider API calls issued, the state handed to saveState (`none` when the
pass did not persist), and the returned error. -/
structure PassResult where
  state : State
  calls : List ApiCall
  persisted : Option State
  result : Except PassErr Unit

/-- checkAndUpdate (main.go:160-241): resolve the public IP (a failure
aborts the pass before any domain is touched); run the domain loop; if no
update errors were collected, set lastIP, set lastUpdated when any record
was written, and persist; otherwise skip persistence and return the
failure count.  A saveState failure is only logged in the Go code, so
persistence is modelled as the state handed to saveState. -/
def checkAndUpdate (env : Env) (domains : List DomainConfig) (st : State) :
    PassResult :=
  match getCurrentIP env.ipFetch with
  | .error e => ⟨st, [], none, .error (.resolution e)⟩
  | .ok currentIP =>
      let run := processDomains env currentIP domains st
      let st1 := run.1
      let calls := run.2.1
      let errs := run.2.2.1
      let updatedAny := run.2.2.2
      if errs.length = 0 then
        let st2 : State :=
          { st1 with
            lastIP := currentIP,
            lastUpdated := if updatedAny then env.now else st1.lastUpdated }
        ⟨st2, calls, some st2, .ok ()⟩
      else
        ⟨st1, calls, none, .error (.updateFailures errs.length)⟩

/-- The state as decoded from the state file by json.Unmarshal: the
records map may be absent (`nil` in Go), in which case loadState
initialises it to the empty map (main.go:504-506). -/
structure RawState where
  lastIP : String
  lastUpdated : Nat
  records : Option (List (String × String))
  deriving DecidableEq, Repr

/-- Result of loadState: the state written to disk by the
missing-file branch (if any), whether the parent directories were
created, and the returned value or error. -/
structure LoadOutcome where
  written : Option State
  madeDirs : Bool
  result : Except String State

/-- loadState (main.go:464-509).  The filesystem is `fs` (the content at
each path, `none` = does not exist), JSON decoding is `parse` (`none` =
malformed), and `writeOk` is whether the MkdirAll/WriteFile pair for the
fresh default state succeeds.  A missing file yields a fresh state (empty
records map, empty last IP) which is written back to disk after creating
the parent directories; malformed content is an error. -/
def loadState (fs : String → Option String) (parse : String → Option RawState)
    (writeOk : Bool) (path : String) : LoadOutcome :=
  match fs path with
  | none =>
      let defaultState : State := { lastIP := "", lastUpdated := 0, records := [] }
      if writeOk then
        { written := some defaultState, madeDirs := true, result := .ok defaultState }
      else
        { written := none, madeDirs := true, result := .error "creating state file" }
  | some data =>
      match parse data with
      | none =>
          { written := none, madeDirs := false, result := .error "parsing state file" }
      | some raw =>
          { written := none, madeDirs := false,
            result := .ok
              { lastIP := raw.lastIP, lastUpdated := raw.lastUpdated,
                records := raw.records.getD [] } }

/-! Concrete test fixtures used by counterexamples and witnesses. -/

/-- The non-apex example domain of the spec: zone example.com, type A,
record label home. -/
def dHome : DomainConfig := ⟨"example.com", "A", "home"⟩

/-- A domain whose record is already correct in the mixed-outcome pass. -/
def dOk : DomainConfig := ⟨"example.com", "A", "ok"⟩

/-- A domain whose update fails in the mixed-outcome pass. -/
def dBad : DomainConfig := ⟨"example.com", "A", "bad"⟩

/-- A fresh state: no last IP, no records. -/
def exStFresh : State := ⟨"", 0, []⟩

/-- An environment for a mixed-outcome pass: the IP resolves to 2.2.2.2,
the provider list reports ok.example.com already at 2.2.2.2 and
bad.example.com at a stale value, and every add attempt fails at the
transport layer. -/
def exEnvMixed : Env where
  ipFetch := .response 200 "2.2.2.2"
  listFetch := fun _ => .response 200 (some ⟨"success",
    [⟨"ok.example.com", "A", "2.2.2.2"⟩, ⟨"bad.example.com", "A", "1.1.1.1"⟩]⟩)
  removeFetch := fun _ => .response 200 none
  addFetch := fun _ _ => .transportError "connection refused"
  now := 7

/-- An environment for a no-op pass: the IP resolves to 203.0.113.42 and
the provider list already reports home.example.com at that value. -/
def exEnvNoop : Env where
  ipFetch := .response 200 "203.0.113.42"
  listFetch := fun _ => .response 200 (some ⟨"success",
    [⟨"home.example.com", "A", "203.0.113.42"⟩]⟩)
  removeFetch := fun _ => .response 200 none
  addFetch := fun _ _ => .response 200 (some ⟨"success", "record added"⟩)
  now := 11

/-- A state that already saw 203.0.113.42 but holds no records entry. -/
def exStNoEntry : State := ⟨"203.0.113.42", 0, []⟩

/-- A state that already saw 203.0.113.42 and carries the matching
records entry for home.example.com. -/
def exStCached : State := ⟨"203.0.113.42", 4, [("home.example.com", "203.0.113.42")]⟩

/-- An environment whose IP resolution fails at the transport layer. -/
def exEnvIPFail : Env where
  ipFetch := .transportError "dial tcp: timeout"
  listFetch := fun _ => .response 200 (some ⟨"success", []⟩)
  removeFetch := fun _ => .response 200 none
  addFetch := fun _ _ => .response 200 (some ⟨"success", "record added"⟩)
  now := 3

/-- An environment whose remove calls fail at the transport layer while
add calls succeed, and whose list calls fail. -/
def exEnvRemoveFail : Env where
  ipFetch := .response 200 "2.2.2.2"
  listFetch := fun _ => .transportError "connection reset"
  removeFetch := fun _ => .transportError "connection reset"
  addFetch := fun _ _ => .response 200 (some ⟨"success", "record added"⟩)
  now := 5

/-! Helper lemmas shared across the development. -/

/-- A successfully resolved public IP is never the empty string: the empty
trimmed body is rejected by getCurrentIP. -/
theorem getCurrentIP_ok_ne_empty {o : IPFetch} {ip : String}
    (h : getCurrentIP o = Except.ok ip) : ip ≠ "" := by
  cases o with
  | transportError m => exact absurd h (by simp [getCurrentIP])
  | response status body =>
      simp only [getCurrentIP] at h
      split at h
      · exact absurd h (by simp)
      · split at h
        · exact absurd h (by simp)
        · rename_i hne
          rw [Except.ok.injEq] at h
          subst h
          exact hne

/-- No string equals itself with a dot prepended. -/
theorem ne_dot_append_self (s : String) : s ≠ "." ++ s := by
  intro h
  have hlen := congrArg String.length h
  rw [String.length_append] at hlen
  have hone : ("." : String).length = 1 := rfl
  rw [hone] at hlen
  omega

/-- The loop body never touches lastIP or lastUpdated: it only writes the
records map. -/
theorem processDomain_frame (env : Env) (ip : String) (st : State)
    (d : DomainConfig) :
    (processDomain env ip st d).1.lastIP = st.lastIP ∧
    (processDomain env ip st d).1.lastUpdated = st.lastUpdated := by
  unfold processDomain
  split
  · exact ⟨rfl, rfl⟩
  · split <;> exact ⟨rfl, rfl⟩

/-- The whole domain loop never touches lastIP or lastUpdated. -/
theorem processDomains_frame (env : Env) (ip : String) :
    ∀ (doms : List DomainConfig) (st : State),
      (processDomains env ip doms st).1.lastIP = st.lastIP ∧
      (processDomains env ip doms st).1.lastUpdated = st.lastUpdated
  | [], _ => ⟨rfl, rfl⟩
  | d :: rest, st => by
      have hd := processDomain_frame env ip st d
      have ht := processDomains_frame env ip rest (processDomain env ip st d).1
      simp only [processDomains]
      exact ⟨ht.1.trans hd.1, ht.2.trans hd.2⟩

/-- Writing back a value the map already holds under that key leaves the
map unchanged. -/
theorem setRecord_of_getRecord :
    ∀ (rs : List (String × String)) (k v : String),
      getRecord rs k = some v → setRecord rs k v = rs
  | [], k, v => by simp [getRecord]
  | (k0, v0) :: rest, k, v => by
      intro h
      by_cases hk : k0 = k
      · simp only [getRecord, if_pos hk, Option.some.injEq] at h
        simp [setRecord, hk, h]
      · simp only [getRecord, if_neg hk] at h
        simp [setRecord, hk, setRecord_of_getRecord rest k v h]

/-- When every configured domain's live value is the resolved IP and the
records map already carries every record key with that IP, the domain
loop issues exactly one list call per domain, returns the state
untouched, collects no errors and updates no record. -/
theorem processDomains_noop (env : Env) (ip : String) :
    ∀ (doms : List DomainConfig) (st : State),
      (∀ d ∈ doms, (getCurrentDNSRecord env d).2 = Except.ok ip) →
      (∀ d ∈ doms, getRecord st.records (reconcileKey d) = some ip) →
      processDomains env ip doms st =
        (st, List.replicate doms.length ApiCall.list, [], false)
  | [], st, _, _ => rfl
  | d :: rest, st, hlive, hcache => by
      have hlv : liveValue env d = ip := by
        simp [liveValue, hlive d (by simp)]
      have hset : setRecord st.records (reconcileKey d) ip = st.records :=
        setRecord_of_getRecord _ _ _ (hcache d (by simp))
      have hstep : processDomain env ip st d = (st, [ApiCall.list], [], false) := by
        unfold processDomain
        rw [if_pos hlv, hset]
        rfl
      have ht := processDomains_noop env ip rest st
        (fun d' hd' => hlive d' (List.mem_cons_of_mem _ hd'))
        (fun d' hd' => hcache d' (List.mem_cons_of_mem _ hd'))
      simp only [processDomains, hstep, ht]
      simp [List.replicate_succ]

/-! C8: record key formatting. -/

/-- C8: the managed record key computed by the reconcile loop is
`record ++ "." ++ zone` when the record label is non-empty and exactly
the zone name when it is empty, in particular on the spec's two example
domains. -/
theorem reconcileKey_formatting :
    (∀ d : DomainConfig, d.record ≠ "" →
      reconcileKey d = d.record ++ "." ++ d.name) ∧
    (∀ d : DomainConfig, d.record = "" → reconcileKey d = d.name) ∧
    reconcileKey ⟨"example.com", "A", "home"⟩ = "home.example.com" ∧
    reconcileKey ⟨"example.com", "A", ""⟩ = "example.com" := by
  refine ⟨fun d h => ?_, fun d h => ?_, by decide, by decide⟩
  · simp [reconcileKey, h]
  · simp [reconcileKey, h]

/-- Witness for C8 at the spec's example domains. -/
theorem reconcileKey_formatting_witness :
    reconcileKey ⟨"example.com", "A", "home"⟩ = "home" ++ "." ++ "example.com" ∧
    reconcileKey ⟨"example.com", "A", ""⟩ = "example.com" :=
  ⟨reconcileKey_formatting.1 ⟨"example.com", "A", "home"⟩ (by decide),
    reconcileKey_formatting.2.1 ⟨"example.com", "A", ""⟩ rfl⟩

/-! C2: reconcile-loop write key versus removeDNSRecord lookup key. -/

/-- C2 counterexample: for an apex domain the reconcile loop writes the
state entry under `example.com` while removeDNSRecord looks up
`.example.com`, so the two accesses do not use the same key. -/
theorem removeLookupKey_apex_counterexample :
    reconcileKey ⟨"example.com", "A", ""⟩ = "example.com" ∧
    removeLookupKey ⟨"example.com", "A", ""⟩ = ".example.com" ∧
    reconcileKey ⟨"example.com", "A", ""⟩ ≠
      removeLookupKey ⟨"example.com", "A", ""⟩ :=
  ⟨by decide, by decide, by decide⟩

/-- C2 amended: the write key of the reconcile loop and the lookup key of
removeDNSRecord coincide exactly for non-apex domains; for an apex domain
removeDNSRecord looks up `"." ++ zone`, which never equals the write key
`zone`. -/
theorem removeLookupKey_matches_iff_nonapex (d : DomainConfig) :
    (d.record ≠ "" → reconcileKey d = removeLookupKey d) ∧
    (d.record = "" →
      removeLookupKey d = "." ++ d.name ∧
      reconcileKey d ≠ removeLookupKey d) := by
  constructor
  · intro h
    simp [reconcileKey, removeLookupKey, h]
  · intro h
    have hkey : removeLookupKey d = "." ++ d.name := by
      simp [removeLookupKey, h, String.empty_append]
    refine ⟨hkey, ?_⟩
    rw [hkey]
    simp [reconcileKey, h]
    exact ne_dot_append_self d.name

/-- Witness for the amended C2 at a non-apex and an apex domain. -/
theorem removeLookupKey_matches_iff_nonapex_witness :
    reconcileKey ⟨"example.com", "A", "home"⟩ =
      removeLookupKey ⟨"example.com", "A", "home"⟩ ∧
    removeLookupKey ⟨"example.com", "A", ""⟩ = "." ++ "example.com" ∧
    reconcileKey ⟨"example.com", "A", ""⟩ ≠
      removeLookupKey ⟨"example.com", "A", ""⟩ :=
  ⟨(removeLookupKey_matches_iff_nonapex ⟨"example.com", "A", "home"⟩).1 (by decide),
    ((removeLookupKey_matches_iff_nonapex ⟨"example.com", "A", ""⟩).2 rfl).1,
    ((removeLookupKey_matches_iff_nonapex ⟨"example.com", "A", ""⟩).2 rfl).2⟩

/-! C6: getCurrentIP contract. -/

/-- C6 counterexample: status 201 is a 2xx status, yet getCurrentIP
returns the status-code error — the code accepts exactly 200, not all of
2xx. -/
theorem getCurrentIP_status_counterexample :
    (200 ≤ 201 ∧ 201 ≤ 299) ∧
    getCurrentIP (IPFetch.response 201 "198.51.100.7") =
      Except.error (IPErr.httpStatus 201) :=
  ⟨by decide, rfl⟩

/-- C6 amended: getCurrentIP returns the whitespace-trimmed body; an
empty trimmed body is an error, never a successful empty address; and the
result is the error carrying the status code exactly when the status is
not 200 (rather than non-2xx). -/
theorem getCurrentIP_spec (status : Nat) (body : String) :
    (status = 200 → trimSpace body ≠ "" →
      getCurrentIP (IPFetch.response status body) = Except.ok (trimSpace body)) ∧
    (status = 200 → trimSpace body = "" →
      getCurrentIP (IPFetch.response status body) =
        Except.error IPErr.emptyResponse) ∧
    (getCurrentIP (IPFetch.response status body) =
        Except.error (IPErr.httpStatus status) ↔ status ≠ 200) := by
  refine ⟨fun h200 hne => ?_, fun h200 he => ?_, ?_, ?_⟩
  · subst h200
    simp [getCurrentIP, hne]
  · subst h200
    simp [getCurrentIP, he]
  · intro h hs
    subst hs
    simp only [getCurrentIP, ne_eq, not_true_eq_false, if_false, ite_not] at h
    split at h
    · exact absurd h (by simp)
    · exact absurd h (by simp)
  · intro h
    simp [getCurrentIP, h]

/-- Witness for the amended C6 at a trimmed body, an all-whitespace body
and a non-200 status. -/
theorem getCurrentIP_spec_witness :
    getCurrentIP (IPFetch.response 200 " 1.2.3.4\n") =
      Except.ok (trimSpace " 1.2.3.4\n") ∧
    getCurrentIP (IPFetch.response 200 "  ") =
      Except.error IPErr.emptyResponse ∧
    getCurrentIP (IPFetch.response 500 "oops") =
      Except.error (IPErr.httpStatus 500) :=
  ⟨(getCurrentIP_spec 200 " 1.2.3.4\n").1 rfl (by decide),
    (getCurrentIP_spec 200 "  ").2.1 rfl (by decide),
    (getCurrentIP_spec 500 "oops").2.2.mpr (by decide)⟩

/-! C3: updateDNSRecord is remove-then-add with the remove error
swallowed. -/

/-- C3: updateDNSRecord issues the remove call first and then always the
add call; the remove outcome is dropped (its error is only logged), and
the result of the whole update is exactly the classification of the add
outcome — given a decoded response, the update succeeds precisely when
the status is 200 and the provider result is "success", so transport
failures, non-200 statuses, decode failures and non-success results are
the propagated error cases. -/
theorem updateDNSRecord_remove_then_add (env : Env) (st : State)
    (d : DomainConfig) (ip : String) :
    (updateDNSRecord env st d ip).1 =
      (removeDNSRecord env st d).1 ++ [ApiCall.add (reconcileKey d) d.type ip] ∧
    (updateDNSRecord env st d ip).2 = addResult (env.addFetch d ip) ∧
    (∀ status body, env.addFetch d ip = HTTPFetch.response status body →
      ((updateDNSRecord env st d ip).2 = Except.ok () ↔
        status = 200 ∧ ∃ b, body = some b ∧ b.result = "success")) := by
  refine ⟨rfl, rfl, ?_⟩
  intro status body hab
  have hres : (updateDNSRecord env st d ip).2 = addResult (env.addFetch d ip) := rfl
  rw [hres, hab]
  by_cases hs : status = 200
  · subst hs
    cases body with
    | none => simp [addResult]
    | some b =>
        by_cases hr : b.result = "success"
        · simp [addResult, hr]
        · simp [addResult, hr]
  · simp [addResult, hs]

/-- Witness for C3: with the remove call failing at the transport layer
and the add call succeeding, the whole update succeeds. -/
theorem updateDNSRecord_remove_then_add_witness :
    (updateDNSRecord exEnvRemoveFail exStFresh dHome "2.2.2.2").2 =
      Except.ok () ∧
    (removeDNSRecord exEnvRemoveFail exStFresh dHome).2 =
      Except.error "connection reset" :=
  ⟨((updateDNSRecord_remove_then_add exEnvRemoveFail exStFresh dHome
      "2.2.2.2").2.2 200 (some ⟨"success", "record added"⟩) rfl).mpr
      ⟨rfl, ⟨"success", "record added"⟩, rfl, rfl⟩,
    rfl⟩

/-! C4: a failed live lookup forces an update attempt. -/

/-- C4: when the live lookup for a domain errors, the loop body treats
the current value as empty; the resolved IP is never empty, so the
comparison fails and the update is attempted for that domain — its
remove and add calls are both issued — rather than the domain being
skipped. -/
theorem lookupFailure_forces_update (env : Env) (st : State)
    (d : DomainConfig) (ip : String) (e : String)
    (hres : getCurrentIP env.ipFetch = Except.ok ip)
    (hl : (getCurrentDNSRecord env d).2 = Except.error e) :
    ip ≠ "" ∧
    liveValue env d = "" ∧
    ApiCall.remove (reconcileKey d) d.type
        (getRecord st.records (removeLookupKey d))
      ∈ (processDomain env ip st d).2.1 ∧
    ApiCall.add (reconcileKey d) d.type ip ∈ (processDomain env ip st d).2.1 := by
  have hip := getCurrentIP_ok_ne_empty hres
  have hlv : liveValue env d = "" := by simp [liveValue, hl]
  have hcond : ¬(liveValue env d = ip) := by
    rw [hlv]
    exact fun hh => hip hh.symm
  have hcalls : (processDomain env ip st d).2.1 =
      (getCurrentDNSRecord env d).1 ++ (updateDNSRecord env st d ip).1 := by
    unfold processDomain
    rw [if_neg hcond]
    split <;> rfl
  have hupd : (updateDNSRecord env st d ip).1 =
      ApiCall.remove (reconcileKey d) d.type
          (getRecord st.records (removeLookupKey d)) ::
        [ApiCall.add (reconcileKey d) d.type ip] := rfl
  refine ⟨hip, hlv, ?_, ?_⟩
  · rw [hcalls, hupd]
    simp
  · rw [hcalls, hupd]
    simp

/-- Witness for C4: the list call fails at the transport layer, yet the
remove and add calls for home.example.com are issued. -/
theorem lookupFailure_forces_update_witness :
    "2.2.2.2" ≠ "" ∧
    liveValue exEnvRemoveFail dHome = "" ∧
    ApiCall.remove (reconcileKey dHome) dHome.type
        (getRecord exStFresh.records (removeLookupKey dHome))
      ∈ (processDomain exEnvRemoveFail "2.2.2.2" exStFresh dHome).2.1 ∧
    ApiCall.add (reconcileKey dHome) dHome.type "2.2.2.2"
      ∈ (processDomain exEnvRemoveFail "2.2.2.2" exStFresh dHome).2.1 :=
  lookupFailure_forces_update exEnvRemoveFail exStFresh dHome "2.2.2.2"
    "connection reset" rfl rfl

/-! C9: a failed IP resolution aborts the pass before anything happens. -/

/-- C9: when resolving the public IP fails, checkAndUpdate returns the
wrapped resolution error immediately: the in-memory state is returned
with every field untouched, no provider call of any kind is issued, and
nothing is handed to saveState. -/
theorem resolutionFailure_aborts_pass (env : Env)
    (domains : List DomainConfig) (st : State) (e : IPErr)
    (h : getCurrentIP env.ipFetch = Except.error e) :
    checkAndUpdate env domains st =
      ⟨st, [], none, Except.error (PassErr.resolution e)⟩ := by
  unfold checkAndUpdate
  rw [h]

/-- Witness for C9 at a transport failure of the IP service, with a
non-trivial prior state. -/
theorem resolutionFailure_aborts_pass_witness :
    checkAndUpdate exEnvIPFail [dHome] exStCached =
      ⟨exStCached, [], none,
        Except.error (PassErr.resolution (IPErr.transport "dial tcp: timeout"))⟩ :=
  resolutionFailure_aborts_pass exEnvIPFail [dHome] exStCached
    (IPErr.transport "dial tcp: timeout") rfl

/-! C1: persistence happens exactly on an error-free pass. -/

/-- C1: in a pass whose IP resolution succeeded, if the domain loop
collected at least one update error then nothing is handed to saveState,
lastIP keeps its prior value, and the pass returns the aggregate error
carrying the number of failed updates (which is positive); if the error
collection is empty, the pass persists exactly its final state and
returns no error. -/
theorem pass_error_blocks_persist (env : Env) (domains : List DomainConfig)
    (st : State) (ip : String)
    (hres : getCurrentIP env.ipFetch = Except.ok ip) :
    ((processDomains env ip domains st).2.2.1 ≠ [] →
      (checkAndUpdate env domains st).persisted = none ∧
      (checkAndUpdate env domains st).state.lastIP = st.lastIP ∧
      (checkAndUpdate env domains st).result =
        Except.error (PassErr.updateFailures
          (processDomains env ip domains st).2.2.1.length) ∧
      0 < (processDomains env ip domains st).2.2.1.length) ∧
    ((processDomains env ip domains st).2.2.1 = [] →
      (checkAndUpdate env domains st).persisted =
        some (checkAndUpdate env domains st).state ∧
      (checkAndUpdate env domains st).result = Except.ok ()) := by
  constructor
  · intro hne
    have hlen : ¬((processDomains env ip domains st).2.2.1.length = 0) := by
      simpa using hne
    have hca : checkAndUpdate env domains st =
        ⟨(processDomains env ip domains st).1,
          (processDomains env ip domains st).2.1, none,
          Except.error (PassErr.updateFailures
            (processDomains env ip domains st).2.2.1.length)⟩ := by
      unfold checkAndUpdate
      rw [hres]
      simp [hlen]
    refine ⟨by rw [hca], ?_, by rw [hca], Nat.pos_of_ne_zero hlen⟩
    rw [hca]
    exact (processDomains_frame env ip domains st).1
  · intro he
    have hlen : (processDomains env ip domains st).2.2.1.length = 0 := by
      simp [he]
    unfold checkAndUpdate
    rw [hres]
    simp [hlen]

/-- Witness for C1 in the mixed-outcome pass: one update fails, so
nothing is persisted, lastIP is untouched and the error reports the
count. -/
theorem pass_error_blocks_persist_witness :
    (checkAndUpdate exEnvMixed [dOk, dBad] exStFresh).persisted = none ∧
    (checkAndUpdate exEnvMixed [dOk, dBad] exStFresh).state.lastIP =
      exStFresh.lastIP ∧
    (checkAndUpdate exEnvMixed [dOk, dBad] exStFresh).result =
      Except.error (PassErr.updateFailures
        (processDomains exEnvMixed "2.2.2.2" [dOk, dBad] exStFresh).2.2.1.length) ∧
    0 < (processDomains exEnvMixed "2.2.2.2" [dOk, dBad] exStFresh).2.2.1.length :=
  (pass_error_blocks_persist exEnvMixed [dOk, dBad] exStFresh "2.2.2.2" rfl).1
    (by decide)

/-! C10: what a failed pass does and does not leave untouched. -/

/-- C10: a pass that returns the aggregate update error leaves lastIP and
lastUpdated unchanged and hands nothing to saveState, yet it may already
have mutated the in-memory records map: in the mixed-outcome pass the
already-correct domain's entry is written into the records map even
though the pass fails on the other domain. -/
theorem failed_pass_frame_and_records_mutation :
    (∀ (env : Env) (domains : List DomainConfig) (st : State) (n : Nat),
      (checkAndUpdate env domains st).result =
        Except.error (PassErr.updateFailures n) →
      (checkAndUpdate env domains st).state.lastIP = st.lastIP ∧
      (checkAndUpdate env domains st).state.lastUpdated = st.lastUpdated ∧
      (checkAndUpdate env domains st).persisted = none) ∧
    ((checkAndUpdate exEnvMixed [dOk, dBad] exStFresh).result =
        Except.error (PassErr.updateFailures 1) ∧
      (checkAndUpdate exEnvMixed [dOk, dBad] exStFresh).state.records =
        [("ok.example.com", "2.2.2.2")] ∧
      (checkAndUpdate exEnvMixed [dOk, dBad] exStFresh).state.records ≠
        exStFresh.records) := by
  constructor
  · intro env domains st n h
    cases hres : getCurrentIP env.ipFetch with
    | error e =>
        rw [resolutionFailure_aborts_pass env domains st e hres] at h
        exact absurd h (by simp)
    | ok ip =>
        by_cases hlen : (processDomains env ip domains st).2.2.1.length = 0
        · have hca : (checkAndUpdate env domains st).result = Except.ok () := by
            unfold checkAndUpdate
            rw [hres]
            simp [hlen]
          rw [hca] at h
          exact absurd h (by simp)
        · have hca : checkAndUpdate env domains st =
              ⟨(processDomains env ip domains st).1,
                (processDomains env ip domains st).2.1, none,
                Except.error (PassErr.updateFailures
                  (processDomains env ip domains st).2.2.1.length)⟩ := by
            unfold checkAndUpdate
            rw [hres]
            simp [hlen]
          refine ⟨?_, ?_, by rw [hca]⟩
          · rw [hca]
            exact (processDomains_frame env ip domains st).1
          · rw [hca]
            exact (processDomains_frame env ip domains st).2
  · exact ⟨rfl, rfl, by decide⟩

/-- Witness for C10's frame part on the mixed-outcome pass. -/
theorem failed_pass_frame_and_records_mutation_witness :
    (checkAndUpdate exEnvMixed [dOk, dBad] exStFresh).state.lastIP =
      exStFresh.lastIP ∧
    (checkAndUpdate exEnvMixed [dOk, dBad] exStFresh).state.lastUpdated =
      exStFresh.lastUpdated ∧
    (checkAndUpdate exEnvMixed [dOk, dBad] exStFresh).persisted = none :=
  failed_pass_frame_and_records_mutation.1 exEnvMixed [dOk, dBad] exStFresh 1 rfl

/-! C7: the no-op pass. -/

/-- C7 counterexample: a pass with the public IP unchanged and the single
configured record's live value already equal to the resolved IP, starting
from a state whose records map lacks the entry.  The pass issues only the
list call — that much of the claim holds — but it persists a records map
with the entry added, not the mapping the state already held. -/
theorem noop_pass_counterexample :
    exStNoEntry.lastIP = "203.0.113.42" ∧
    getCurrentIP exEnvNoop.ipFetch = Except.ok "203.0.113.42" ∧
    (getCurrentDNSRecord exEnvNoop dHome).2 = Except.ok "203.0.113.42" ∧
    (checkAndUpdate exEnvNoop [dHome] exStNoEntry).calls = [ApiCall.list] ∧
    (checkAndUpdate exEnvNoop [dHome] exStNoEntry).persisted =
      some (checkAndUpdate exEnvNoop [dHome] exStNoEntry).state ∧
    (checkAndUpdate exEnvNoop [dHome] exStNoEntry).state.records =
      [("home.example.com", "203.0.113.42")] ∧
    (checkAndUpdate exEnvNoop [dHome] exStNoEntry).state.records ≠
      exStNoEntry.records :=
  ⟨rfl, rfl, rfl, rfl, rfl, rfl, by decide⟩

/-- C7 amended: when additionally the records map already carries every
configured record key with the resolved IP, the pass issues exactly one
list call per domain and zero add or remove calls, and re-persists the
state exactly as it already was — same records mapping, same lastIP, same
lastUpdated. -/
theorem noop_pass_idempotent (env : Env) (domains : List DomainConfig)
    (st : State) (ip : String)
    (hres : getCurrentIP env.ipFetch = Except.ok ip)
    (hlast : st.lastIP = ip)
    (hlive : ∀ d ∈ domains, (getCurrentDNSRecord env d).2 = Except.ok ip)
    (hcache : ∀ d ∈ domains, getRecord st.records (reconcileKey d) = some ip) :
    (checkAndUpdate env domains st).calls =
      List.replicate domains.length ApiCall.list ∧
    (checkAndUpdate env domains st).state = st ∧
    (checkAndUpdate env domains st).persisted = some st ∧
    (checkAndUpdate env domains st).result = Except.ok () := by
  have hpd := processDomains_noop env ip domains st hlive hcache
  have hst2 : ({ st with lastIP := ip, lastUpdated := st.lastUpdated } : State)
      = st := by
    rw [← hlast]
  have hca : checkAndUpdate env domains st =
      ⟨st, List.replicate domains.length ApiCall.list, some st, Except.ok ()⟩ := by
    unfold checkAndUpdate
    rw [hres]
    simp [hpd, hst2]
  exact ⟨by rw [hca], by rw [hca], by rw [hca], by rw [hca]⟩

/-- Witness for the amended C7: the no-op pass from the state that
already carries the records entry re-persists it unchanged. -/
theorem noop_pass_idempotent_witness :
    (checkAndUpdate exEnvNoop [dHome] exStCached).calls =
      List.replicate 1 ApiCall.list ∧
    (checkAndUpdate exEnvNoop [dHome] exStCached).state = exStCached ∧
    (checkAndUpdate exEnvNoop [dHome] exStCached).persisted = some exStCached ∧
    (checkAndUpdate exEnvNoop [dHome] exStCached).result = Except.ok () :=
  noop_pass_idempotent exEnvNoop [dHome] exStCached "203.0.113.42" rfl rfl
    (fun d hd => by
      rw [List.mem_singleton] at hd
      subst hd
      rfl)
    (fun d hd => by
      rw [List.mem_singleton] at hd
      subst hd
      rfl)

/-! C5: loadState on a missing path and on a corrupt file. -/

/-- C5: loadState on a path that does not exist creates the parent
directories, writes a fresh state with an empty records map and empty
last IP to disk, and returns it rather than an error; on an existing path
whose content fails to parse it returns an error rather than discarding
the file. -/
theorem loadState_missing_and_corrupt (fs : String → Option String)
    (parse : String → Option RawState) (path : String) :
    (fs path = none →
      loadState fs parse true path =
        { written := some { lastIP := "", lastUpdated := 0, records := [] },
          madeDirs := true,
          result := Except.ok { lastIP := "", lastUpdated := 0, records := [] } }) ∧
    (∀ data wOk, fs path = some data → parse data = none →
      loadState fs parse wOk path =
        { written := none, madeDirs := false,
          result := Except.error "parsing state file" }) := by
  constructor
  · intro h
    simp [loadState, h]
  · intro data wOk hd hp
    simp [loadState, hd, hp]

/-- Witness for C5 at a missing file and at a file that fails to
parse. -/
theorem loadState_missing_and_corrupt_witness :
    loadState (fun _ => none) (fun _ => none) true
        "/var/lib/dh-ddns-updater/state.json" =
      { written := some { lastIP := "", lastUpdated := 0, records := [] },
        madeDirs := true,
        result := Except.ok { lastIP := "", lastUpdated := 0, records := [] } } ∧
    loadState (fun _ => some "not json") (fun _ => none) true
        "/var/lib/dh-ddns-updater/state.json" =
      { written := none, madeDirs := false,
        result := Except.error "parsing state file" } :=
  ⟨(loadState_missing_and_corrupt (fun _ => none) (fun _ => none)
      "/var/lib/dh-ddns-updater/state.json").1 rfl,
    (loadState_missing_and_corrupt (fun _ => some "not json") (fun _ => none)
      "/var/lib/dh-ddns-updater/state.json").2 "not json" true rfl rfl⟩

end DhDdns
